import Mathlib

/-!
Shallow embedding of the Voice-Message-Generator front end.

The definitions below are translated from the TypeScript sources:
* `types.ts` (data model, `GenerationStatus`),
* `geminiService.ts` (`sanitize`, `parseSafeJSON`, `processAudioResearch`,
  `generateSpeech`'s marker stripping, `decodeAudioData`),
* `OutreachForm` (`TONE_VOICE_MAP`, `validateFields`, `handleGenerate`,
  `estimatedDuration`, `durationStatus`, `handleSaveToLibrary`, `updateField`),
* `LibraryView` (`handleDelete`),
* `App.tsx` (tab / style-reference persistence in local storage).

JavaScript strings are modelled as Lean `String` (the inputs of interest are
ASCII, so UTF-16 length and Unicode whitespace subtleties do not arise);
JavaScript numbers are modelled as `ℚ` where fractions matter and as
`Nat`/`ℤ` where the code only meets integers.
-/

/-- JS `\s` character class, restricted to the ASCII whitespace the inputs use. -/
def jsWs (c : Char) : Bool := c.isWhitespace

/-- JS `String.prototype.trim`: drop whitespace from both ends. -/
def jsTrim (s : String) : String :=
  String.mk (((s.toList.dropWhile jsWs).reverse.dropWhile jsWs).reverse)

/-- Accumulator-style tokenizer: maximal runs of non-whitespace characters.
For a string with no leading whitespace this is exactly what
JS `str.split(/\s+/)` returns. -/
def splitWsAux : List Char → List Char → List (List Char)
  | [], acc => if acc.isEmpty then [] else [acc.reverse]
  | c :: rest, acc =>
    if jsWs c then
      if acc.isEmpty then splitWsAux rest [] else acc.reverse :: splitWsAux rest []
    else splitWsAux rest (c :: acc)

/-- The word tokens of a string (used to model `split(/\s+/)` on trimmed input). -/
def splitWs (s : String) : List String :=
  (splitWsAux s.toList []).map String.mk

/-- JS `cleanScript.trim().split(/\s+/).length`: note that in JavaScript
`"".split(/\s+/)` is `[""]`, of length 1. -/
def jsWordCount (s : String) : Nat :=
  let t := jsTrim s
  if t = "" then 1 else (splitWs t).length

/-- Scan for the first `]` (a lazy `.*?` cannot cross a newline, since `.`
does not match `\n`); on success return the remainder after it. -/
def splitOnClose : List Char → Option (List Char)
  | [] => none
  | c :: rest =>
    if c = ']' then some rest
    else if c = Char.ofNat 10 then none
    else splitOnClose rest

theorem splitOnClose_length_le : ∀ l r : List Char, splitOnClose l = some r → r.length ≤ l.length := by
  intro l
  induction l with
  | nil => intro r h; simp [splitOnClose] at h
  | cons c rest ih =>
    intro r h
    simp only [splitOnClose] at h
    by_cases hc : c = ']'
    · simp [hc] at h
      subst h
      simp
    · by_cases hn : c = Char.ofNat 10
      · simp [hc, hn] at h
      · simp [hc, hn] at h
        have := ih r h
        simp
        omega

/-- Fuel-indexed worker for the global regex replace `s.replace(/\[.*?\]/g, '')`:
on a `[`, the engine removes everything through the first reachable `]`;
if no `]` is reachable the `[` is kept literally.  The fuel always dominates
the list length, so the zero-fuel branch is never taken on the intended calls. -/
def stripMarkersAux : Nat → List Char → List Char
  | 0, _ => []
  | _ + 1, [] => []
  | fuel + 1, c :: rest =>
    if c = '[' then
      match splitOnClose rest with
      | some rest2 => stripMarkersAux fuel rest2
      | none => c :: stripMarkersAux fuel rest
    else c :: stripMarkersAux fuel rest

/-- JS `text.replace(/\[.*?\]/g, '')`, the timing-marker stripper used by both
`generateSpeech` and the `estimatedDuration` memo. -/
def stripMarkers (s : String) : String :=
  String.mk (stripMarkersAux (s.toList.length + 1) s.toList)

/-- `generateSpeech`'s `cleanText = text.replace(/\[.*?\]/g, '').trim()`. -/
def cleanTextForSpeech (text : String) : String :=
  jsTrim (stripMarkers text)

/-- JS `String.prototype.toLowerCase` on the ASCII tone labels used here. -/
def jsToLower (s : String) : String :=
  String.mk (s.toList.map Char.toLower)

/-- The TTS prompt built by `generateSpeech`. -/
def speechPrompt (text tone : String) : String :=
  "Voice this script in a " ++ jsToLower tone ++ " tone: \"" ++ cleanTextForSpeech text ++ "\""

/-- Result record of a generation call (`VoiceNoteResult` in `types.ts`). -/
structure VoiceNoteResult where
  script : String
  followUp : String
deriving DecidableEq, Repr

/-- `GenerationStatus` enum from `types.ts`. -/
inductive GenerationStatus
  | IDLE
  | LOADING
  | SUCCESS
  | ERROR
deriving DecidableEq, Repr

/-- JS `Math.round` on the nonnegative values produced here: round half up. -/
def jsRound (q : ℚ) : ℤ := ⌊q + 1 / 2⌋

/-- The `estimatedDuration` memo of `OutreachForm`:
`if (!result?.script) return 0;` then strip markers, count words, and
return `Math.round((words / 140) * 60)`. -/
def estimatedDuration (result : Option VoiceNoteResult) : ℤ :=
  match result with
  | none => 0
  | some r =>
    if r.script = "" then 0
    else
      let cleanScript := stripMarkers r.script
      let words := jsWordCount cleanScript
      jsRound ((words : ℚ) / 140 * 60)

/-- The three display buckets of the `durationStatus` memo. -/
inductive DurationLabel
  | tooShort
  | perfectLength
  | aBitLong
deriving DecidableEq, Repr

/-- The `durationStatus` memo: `< 30` too short, `≤ 55` perfect, else long. -/
def durationStatus (d : ℤ) : DurationLabel :=
  if d < 30 then DurationLabel.tooShort
  else if d ≤ 55 then DurationLabel.perfectLength
  else DurationLabel.aBitLong

/-- The form record (`VoiceNoteInput` in `types.ts`).  Every value the UI
passes to `updateField` is a DOM string (selects and text inputs), so all
fields are modelled as strings; `selectedVoice` holds one of the voice
names `Zephyr`, `Puck`, `Charon`, `Kore`, `Fenrir`. -/
structure VoiceNoteInput where
  ownerName : String
  businessName : String
  identifiedGap : String
  freeValue : String
  platform : String
  tone : String
  goal : String
  templateId : Option String
  referenceScriptId : Option String
  selectedVoice : String
deriving DecidableEq, Repr

/-- The keys of `VoiceNoteInput`, as used by `updateField(field, value)`. -/
inductive FieldKey
  | ownerName
  | businessName
  | identifiedGap
  | freeValue
  | platform
  | tone
  | goal
  | selectedVoice
deriving DecidableEq, Repr

/-- Record update `{ ...prev, [field]: value }`. -/
def setField (fd : VoiceNoteInput) (field : FieldKey) (value : String) : VoiceNoteInput :=
  match field with
  | FieldKey.ownerName => { fd with ownerName := value }
  | FieldKey.businessName => { fd with businessName := value }
  | FieldKey.identifiedGap => { fd with identifiedGap := value }
  | FieldKey.freeValue => { fd with freeValue := value }
  | FieldKey.platform => { fd with platform := value }
  | FieldKey.tone => { fd with tone := value }
  | FieldKey.goal => { fd with goal := value }
  | FieldKey.selectedVoice => { fd with selectedVoice := value }

/-- `TONE_VOICE_MAP` from `OutreachForm`: a string-keyed record lookup. -/
def TONE_VOICE_MAP (tone : String) : Option String :=
  if tone = "Casual" then some "Puck"
  else if tone = "Professional" then some "Charon"
  else if tone = "Direct" then some "Fenrir"
  else if tone = "Warm" then some "Kore"
  else none

/-- `updateField` from `OutreachForm`: write the field, and when the field is
`tone`, overwrite `selectedVoice` with `TONE_VOICE_MAP[value] || 'Zephyr'`. -/
def updateField (fd : VoiceNoteInput) (field : FieldKey) (value : String) : VoiceNoteInput :=
  let newData := setField fd field value
  if field = FieldKey.tone then
    { newData with selectedVoice := (TONE_VOICE_MAP value).getD "Zephyr" }
  else newData

/-- Read one of the four required text fields. -/
def getField (fd : VoiceNoteInput) (field : FieldKey) : String :=
  match field with
  | FieldKey.ownerName => fd.ownerName
  | FieldKey.businessName => fd.businessName
  | FieldKey.identifiedGap => fd.identifiedGap
  | FieldKey.freeValue => fd.freeValue
  | FieldKey.platform => fd.platform
  | FieldKey.tone => fd.tone
  | FieldKey.goal => fd.goal
  | FieldKey.selectedVoice => fd.selectedVoice

/-- The `requiredFields` array of `validateFields`, in source order. -/
def requiredFields : List FieldKey :=
  [FieldKey.ownerName, FieldKey.businessName, FieldKey.identifiedGap, FieldKey.freeValue]

/-- The JS key name of a required field (used to build the error message). -/
def fieldKeyName (field : FieldKey) : String :=
  match field with
  | FieldKey.ownerName => "ownerName"
  | FieldKey.businessName => "businessName"
  | FieldKey.identifiedGap => "identifiedGap"
  | FieldKey.freeValue => "freeValue"
  | FieldKey.platform => "platform"
  | FieldKey.tone => "tone"
  | FieldKey.goal => "goal"
  | FieldKey.selectedVoice => "selectedVoice"

/-- `field.replace(/([A-Z])/g, ' $1').toLowerCase()`: a space is inserted
before each uppercase letter and the whole string is lowercased. -/
def jsFieldLabel (s : String) : String :=
  String.mk ((s.toList.flatMap fun c => if c.isUpper then [' ', c] else [c]).map Char.toLower)

/-- The field-specific validation message of `validateFields`. -/
def fieldMessage (field : FieldKey) : String :=
  "Please provide a valid value for " ++ jsFieldLabel (fieldKeyName field) ++ "."

/-- The per-field test of `validateFields`:
`!formData[field] || (formData[field] as string).trim().length < 2`
(for a string, falsiness is emptiness). -/
def isBadField (v : String) : Bool :=
  v = "" || (jsTrim v).length < 2

/-- `validateFields` from `OutreachForm`: scan the four required fields in
order and report the message of the first failing one (the code sets the
message and returns `false`; `none` here models returning `true`). -/
def validateFields (fd : VoiceNoteInput) : Option String :=
  match requiredFields.find? (fun f => isBadField (getField fd f)) with
  | some f => some (fieldMessage f)
  | none => none

/-- The component state touched by `handleGenerate`. -/
structure ControllerState where
  formData : VoiceNoteInput
  status : GenerationStatus
  errorMessage : Option String
  result : Option VoiceNoteResult
deriving DecidableEq, Repr

/-- The outcome of the awaited `generateVoiceNote` backend call: either a
parsed result or an error whose message the catch block reads. -/
def BackendOutcome := Except String VoiceNoteResult

/-- `handleGenerate` from `OutreachForm`, as a state transformer.  The
returned `Bool` records whether the backend generation call was started.
The source, in order: bail out while already `LOADING`; clear the error
message; run validation and stop on its message; set `LOADING` and clear the
result; then either store the result with `SUCCESS` or store
`error.message || "Something went wrong."` with `ERROR`. -/
def handleGenerate (st : ControllerState) (backend : Except String VoiceNoteResult) :
    ControllerState × Bool :=
  if st.status = GenerationStatus.LOADING then (st, false)
  else
    let st1 := { st with errorMessage := none }
    match validateFields st.formData with
    | some msg => ({ st1 with errorMessage := some msg }, false)
    | none =>
      let st2 := { st1 with status := GenerationStatus.LOADING, result := none }
      match backend with
      | Except.ok data =>
        ({ st2 with result := some data, status := GenerationStatus.SUCCESS }, true)
      | Except.error e =>
        ({ st2 with errorMessage := some (if e = "" then "Something went wrong." else e),
                    status := GenerationStatus.ERROR }, true)

/-- `SavedScript` from `types.ts`. -/
structure SavedScript where
  id : String
  title : String
  content : String
  ownerName : String
  businessName : String
  createdAt : Nat
deriving DecidableEq, Repr

/-- The entry built by `handleSaveToLibrary` (both `id` and `createdAt` come
from the same `Date.now()` reading in the model; the source calls it twice
in quick succession). -/
def mkSavedEntry (now : Nat) (fd : VoiceNoteInput) (script : String) : SavedScript :=
  { id := toString now,
    title := fd.ownerName ++ " @ " ++ fd.businessName,
    content := script,
    ownerName := fd.ownerName,
    businessName := fd.businessName,
    createdAt := now }

/-- `handleSaveToLibrary` from `OutreachForm`, at the level of the persisted
list: bail out without a script, otherwise write `[newEntry, ...existing]`. -/
def handleSaveToLibrary (now : Nat) (fd : VoiceNoteInput) (result : Option VoiceNoteResult)
    (existing : List SavedScript) : List SavedScript :=
  match result with
  | none => existing
  | some r =>
    if r.script = "" then existing
    else mkSavedEntry now fd r.script :: existing

/-- `handleDelete` from `LibraryView`: `scripts.filter(s => s.id !== id)`,
written back in full. -/
def handleDelete (id0 : String) (scripts : List SavedScript) : List SavedScript :=
  scripts.filter (fun s => s.id != id0)

/-- Reassemble a little-endian signed 16-bit sample from two bytes
(the view `new Int16Array(data.buffer)` takes of the byte stream). -/
def toInt16 (lo hi : Nat) : ℤ :=
  let u := lo % 256 + 256 * (hi % 256)
  if u < 32768 then (u : ℤ) else (u : ℤ) - 65536

/-- The full `Int16Array` view of the byte stream.  (On an odd byte length
`new Int16Array(buffer)` throws, so a trailing lone byte does not occur on
the modelled inputs; it is dropped here.) -/
def bytesToInt16LE : List Nat → List ℤ
  | lo :: hi :: rest => toInt16 lo hi :: bytesToInt16LE rest
  | _ => []

/-- `decodeAudioData` from `geminiService.ts`: de-interleave
`frameCount = dataInt16.length / numChannels` frames into per-channel
arrays, each sample divided by 32768.0.  The samples are dyadic rationals,
which double-precision floats represent exactly, so `ℚ` is a faithful
carrier. -/
def decodeAudioData (data : List Nat) (numChannels : Nat) : List (List ℚ) :=
  let dataInt16 := bytesToInt16LE data
  let frameCount := dataInt16.length / numChannels
  (List.range numChannels).map fun channel =>
    (List.range frameCount).map fun i =>
      ((dataInt16.getD (i * numChannels + channel) 0 : ℚ) / 32768)

/-- `sanitize` from `geminiService.ts`: `val.trim().replace(/[<>]/g, '')`. -/
def sanitize (val : String) : String :=
  String.mk ((jsTrim val).toList.filter (fun c => !(c = '<' || c = '>')))

/-- JSON values, the image of `JSON.parse`. -/
inductive Json
  | null
  | bool (b : Bool)
  | num (q : ℚ)
  | str (s : String)
  | arr (items : List Json)
  | obj (fields : List (String × Json))

/-- The backtick character (used by the Markdown code fences the model may
wrap its JSON in). -/
def tickChar : Char := Char.ofNat 96

/-- Worker for the global replace `text.replace(/```json|```/gi, '')`:
at each position a fence of three backticks is removed, together with a
following `json` (case-insensitively) when present; everything else is kept. -/
def stripFencesAux : Nat → List Char → List Char
  | 0, _ => []
  | _ + 1, [] => []
  | fuel + 1, c :: rest =>
    if c = tickChar then
      match rest with
      | c2 :: c3 :: rest2 =>
        if c2 = tickChar && c3 = tickChar then
          match rest2 with
          | j :: s :: o :: n :: rest3 =>
            if j.toLower = 'j' && s.toLower = 's' && o.toLower = 'o' && n.toLower = 'n' then
              stripFencesAux fuel rest3
            else stripFencesAux fuel rest2
          | _ => stripFencesAux fuel rest2
        else c :: stripFencesAux fuel rest
      | _ => c :: stripFencesAux fuel rest
    else c :: stripFencesAux fuel rest

/-- `text.replace(/```json|```/gi, '')` from `parseSafeJSON`. -/
def stripFences (s : String) : String :=
  String.mk (stripFencesAux (s.toList.length + 1) s.toList)

/-- The opening brace character. -/
def braceOpen : Char := Char.ofNat 123

/-- The closing brace character. -/
def braceClose : Char := Char.ofNat 125

/-- Skip JSON whitespace. -/
def skipWsL (l : List Char) : List Char := l.dropWhile jsWs

/-- The JSON string escapes `JSON.parse` accepts that occur here
(`\uXXXX` escapes are left unsupported; an unsupported escape is a parse
failure, erring on the side of rejecting). -/
def escChar (e : Char) : Option Char :=
  if e = '"' then some '"'
  else if e = '\\' then some '\\'
  else if e = '/' then some '/'
  else if e = 'n' then some (Char.ofNat 10)
  else if e = 't' then some (Char.ofNat 9)
  else if e = 'r' then some (Char.ofNat 13)
  else if e = 'b' then some (Char.ofNat 8)
  else if e = 'f' then some (Char.ofNat 12)
  else none

/-- Parse the body of a JSON string literal after its opening quote; return
the decoded characters and the remainder after the closing quote. -/
def parseStringBody : Nat → List Char → Option (List Char × List Char)
  | 0, _ => none
  | _ + 1, [] => none
  | fuel + 1, c :: rest =>
    if c = '"' then some ([], rest)
    else if c = '\\' then
      match rest with
      | e :: rest2 =>
        match escChar e with
        | some ch => (parseStringBody fuel rest2).map fun p => (ch :: p.1, p.2)
        | none => none
      | [] => none
    else (parseStringBody fuel rest).map fun p => (c :: p.1, p.2)

/-- Digit run to a natural number. -/
def digitsToNat (ds : List Char) : Nat :=
  ds.foldl (fun a c => a * 10 + (c.toNat - 48)) 0

/-- Parse a JSON number: optional sign, digits, optional fraction
(exponents left unsupported, again erring toward rejection). -/
def parseNumber (l : List Char) : Option (ℚ × List Char) :=
  let signed := l.head? = some '-'
  let l1 := if signed then l.tail else l
  let ds := l1.takeWhile Char.isDigit
  let l2 := l1.dropWhile Char.isDigit
  if ds.isEmpty then none
  else
    let ipart : ℚ := (digitsToNat ds : ℚ)
    match l2 with
    | '.' :: l3 =>
      let fs := l3.takeWhile Char.isDigit
      let l4 := l3.dropWhile Char.isDigit
      if fs.isEmpty then none
      else
        let q := ipart + (digitsToNat fs : ℚ) / ((10 : ℚ) ^ fs.length)
        some (if signed then -q else q, l4)
    | _ => some (if signed then -ipart else ipart, l2)

/-- Parsing mode: a JSON value, the members of an object after its opening
brace, or the items of an array after its opening bracket. -/
inductive PMode
  | value
  | members
  | items

/-- Intermediate parse results for the three modes. -/
inductive PRes
  | val (j : Json)
  | mems (fields : List (String × Json))
  | items (xs : List Json)

/-- A recursive-descent JSON parser, fuel-indexed so that the recursion is
structural (every recursive call consumes at least one character, so fuel
`length + 1` never runs out). -/
def parseAux : Nat → PMode → List Char → Option (PRes × List Char)
  | 0, _, _ => none
  | fuel + 1, PMode.value, l =>
    match skipWsL l with
    | [] => none
    | c :: rest =>
      if c = '"' then
        (parseStringBody fuel rest).map fun p => (PRes.val (Json.str (String.mk p.1)), p.2)
      else if c = braceOpen then
        match skipWsL rest with
        | c2 :: rest2 =>
          if c2 = braceClose then some (PRes.val (Json.obj []), rest2)
          else
            match parseAux fuel PMode.members (skipWsL rest) with
            | some (PRes.mems fs, r) => some (PRes.val (Json.obj fs), r)
            | _ => none
        | [] => none
      else if c = '[' then
        match skipWsL rest with
        | c2 :: rest2 =>
          if c2 = ']' then some (PRes.val (Json.arr []), rest2)
          else
            match parseAux fuel PMode.items (skipWsL rest) with
            | some (PRes.items xs, r) => some (PRes.val (Json.arr xs), r)
            | _ => none
        | [] => none
      else if c = 't' then
        match rest with
        | 'r' :: 'u' :: 'e' :: r => some (PRes.val (Json.bool true), r)
        | _ => none
      else if c = 'f' then
        match rest with
        | 'a' :: 'l' :: 's' :: 'e' :: r => some (PRes.val (Json.bool false), r)
        | _ => none
      else if c = 'n' then
        match rest with
        | 'u' :: 'l' :: 'l' :: r => some (PRes.val Json.null, r)
        | _ => none
      else
        (parseNumber (c :: rest)).map fun p => (PRes.val (Json.num p.1), p.2)
  | fuel + 1, PMode.members, l =>
    match skipWsL l with
    | [] => none
    | c :: rest =>
      if c = '"' then
        match parseStringBody fuel rest with
        | some (key, r1) =>
          match skipWsL r1 with
          | c2 :: r2 =>
            if c2 = ':' then
              match parseAux fuel PMode.value r2 with
              | some (PRes.val v, r3) =>
                match skipWsL r3 with
                | c3 :: r4 =>
                  if c3 = ',' then
                    match parseAux fuel PMode.members r4 with
                    | some (PRes.mems fs, r) => some (PRes.mems ((String.mk key, v) :: fs), r)
                    | _ => none
                  else if c3 = braceClose then some (PRes.mems [(String.mk key, v)], r4)
                  else none
                | [] => none
              | _ => none
            else none
          | [] => none
        | none => none
      else none
  | fuel + 1, PMode.items, l =>
    match parseAux fuel PMode.value l with
    | some (PRes.val v, r1) =>
      match skipWsL r1 with
      | c2 :: r2 =>
        if c2 = ',' then
          match parseAux fuel PMode.items r2 with
          | some (PRes.items xs, r) => some (PRes.items (v :: xs), r)
          | _ => none
        else if c2 = ']' then some (PRes.items [v], r2)
        else none
      | [] => none
    | _ => none

/-- `JSON.parse`, on the JSON fragment above: a full-string parse with
nothing but whitespace allowed after the value. -/
def jsonParse (s : String) : Option Json :=
  match parseAux (s.toList.length + 1) PMode.value s.toList with
  | some (PRes.val j, rest) => if skipWsL rest = [] then some j else none
  | _ => none

/-- `parseSafeJSON` from `geminiService.ts`: strip Markdown fences, trim,
`JSON.parse`, and on failure throw the response-format error. -/
def parseSafeJSON (text : String) : Except String Json :=
  let cleaned := jsTrim (stripFences text)
  match jsonParse cleaned with
  | some j => Except.ok j
  | none => Except.error "The AI returned an invalid response format. Please try again."

/-- The partial `VoiceNoteInput` returned by `processAudioResearch`. -/
structure ExtractedFields where
  ownerName : String
  businessName : String
  identifiedGap : String
  freeValue : String
deriving DecidableEq, Repr

/-- JS `result.key || ''` followed by use as a string: a missing or falsy
property yields `''`; reading a property off `null` or calling `.trim()` on
a truthy non-string throws a `TypeError` (modelled as `Except.error ()`). -/
def fieldAsString (j : Json) (key : String) : Except Unit String :=
  match j with
  | Json.null => Except.error ()
  | Json.obj fields =>
    match (fields.find? fun p => p.1 == key).map Prod.snd with
    | none => Except.ok ""
    | some Json.null => Except.ok ""
    | some (Json.bool b) => if b then Except.error () else Except.ok ""
    | some (Json.num q) => if q = 0 then Except.ok "" else Except.error ()
    | some (Json.str s) => Except.ok s
    | some (Json.arr _) => Except.error ()
    | some (Json.obj _) => Except.error ()
  | _ => Except.ok ""

/-- The field-extraction block of `processAudioResearch`:
`sanitize(result.ownerName || '')` and its three siblings, with any
`TypeError` from a non-string truthy value propagated. -/
def extractAll (j : Json) : Except String ExtractedFields :=
  match fieldAsString j "ownerName", fieldAsString j "businessName",
        fieldAsString j "identifiedGap", fieldAsString j "freeValue" with
  | Except.ok a, Except.ok b, Except.ok c, Except.ok d =>
    Except.ok { ownerName := sanitize a, businessName := sanitize b,
                identifiedGap := sanitize c, freeValue := sanitize d }
  | _, _, _, _ => Except.error "TypeError"

/-- The body of `processAudioResearch`'s `try` block.  Its input is the
outcome of the awaited backend call: `Except.error` when the transport call
throws (the message is irrelevant), `Except.ok` with the optional response
text otherwise.  `response.text || '{}'` substitutes `"\x7b\x7d"` for a
missing or empty text. -/
def processAudioResearchTry (backend : Except String (Option String)) :
    Except String ExtractedFields :=
  match backend with
  | Except.error e => Except.error e
  | Except.ok respText =>
    let t := match respText with
      | some s => if s = "" then "\x7b\x7d" else s
      | none => "\x7b\x7d"
    match parseSafeJSON t with
    | Except.error e => Except.error e
    | Except.ok j => extractAll j

/-- `processAudioResearch` from `geminiService.ts` (the deployed first
version): the whole body sits in one `try` whose `catch` replaces every
failure — transport, response format, or field access — with the one
generic extraction message. -/
def processAudioResearch (backend : Except String (Option String)) :
    Except String ExtractedFields :=
  match processAudioResearchTry backend with
  | Except.ok v => Except.ok v
  | Except.error _ =>
    Except.error "Unable to parse the audio research. Please speak more clearly or fill fields manually."

/-- The browser local storage: a flat map from string keys to stored values.
`JSON.stringify`/`JSON.parse` round plain records through strings; the
store is modelled at the parsed-value level, holding `Json` directly. -/
abbrev Store := List (String × Json)

/-- `localStorage.removeItem`. -/
def removeItem (store : Store) (k : String) : Store :=
  store.filter fun p => p.1 != k

/-- `localStorage.setItem`: last write wins for the key. -/
def setItem (store : Store) (k : String) (v : Json) : Store :=
  (k, v) :: removeItem store k

/-- `localStorage.getItem`. -/
def getItem (store : Store) (k : String) : Option Json :=
  (store.find? fun p => p.1 == k).map Prod.snd

/-- `JSON.stringify` of a `SavedScript`, at the value level. -/
def scriptToJson (s : SavedScript) : Json :=
  Json.obj [("id", Json.str s.id), ("title", Json.str s.title),
            ("content", Json.str s.content), ("ownerName", Json.str s.ownerName),
            ("businessName", Json.str s.businessName),
            ("createdAt", Json.num (s.createdAt : ℚ))]

/-- Object field lookup. -/
def jsonObjGet (j : Json) (k : String) : Option Json :=
  match j with
  | Json.obj fields => (fields.find? fun p => p.1 == k).map Prod.snd
  | _ => none

/-- Read a string field. -/
def jsonStr? (j : Option Json) : Option String :=
  match j with
  | some (Json.str s) => some s
  | _ => none

/-- Read a natural-number field. -/
def jsonNat? (j : Option Json) : Option Nat :=
  match j with
  | some (Json.num q) => if q.den = 1 ∧ 0 ≤ q.num then some q.num.toNat else none
  | _ => none

/-- `JSON.parse` of a stored `SavedScript` (the shape `App` reads back). -/
def scriptFromJson (j : Json) : Option SavedScript := do
  let id ← jsonStr? (jsonObjGet j "id")
  let title ← jsonStr? (jsonObjGet j "title")
  let content ← jsonStr? (jsonObjGet j "content")
  let ownerName ← jsonStr? (jsonObjGet j "ownerName")
  let businessName ← jsonStr? (jsonObjGet j "businessName")
  let createdAt ← jsonNat? (jsonObjGet j "createdAt")
  pure { id := id, title := title, content := content, ownerName := ownerName,
         businessName := businessName, createdAt := createdAt }

/-- The `App` component state the claims touch. -/
structure AppState where
  activeTab : String
  selectedReference : Option SavedScript
deriving DecidableEq, Repr

/-- The `selectedReference` persistence effect in `App`: store the record
under `app_active_reference`, or remove the key entirely when it is `null`. -/
def persistReference (store : Store) (ref : Option SavedScript) : Store :=
  match ref with
  | some s => setItem store "app_active_reference" (scriptToJson s)
  | none => removeItem store "app_active_reference"

/-- The `activeTab` persistence effect in `App`. -/
def persistTab (store : Store) (tab : String) : Store :=
  setItem store "app_active_tab" (Json.str tab)

/-- Both `App` persistence effects after a state change. -/
def persistApp (store : Store) (st : AppState) : Store :=
  persistReference (persistTab store st.activeTab) st.selectedReference

/-- The lazy initializer of `selectedReference`:
`saved ? JSON.parse(saved) : null`. -/
def loadReference (store : Store) : Option SavedScript :=
  match getItem store "app_active_reference" with
  | some j => scriptFromJson j
  | none => none

/-- The lazy initializer of `activeTab`: the stored string or `'create'`. -/
def loadTab (store : Store) : String :=
  match getItem store "app_active_tab" with
  | some (Json.str t) => t
  | _ => "create"

/-- A simulated page reload: both `useState` initializers re-read the store. -/
def initApp (store : Store) : AppState :=
  { activeTab := loadTab store, selectedReference := loadReference store }

/-- `handleUseAsReference` from `App`: select the script and switch to the
generator tab. -/
def handleUseAsReference (script : SavedScript) : AppState :=
  { activeTab := "create", selectedReference := some script }

/-- `onClearReference` from `App`: `setSelectedReference(null)`. -/
def handleClearReference (st : AppState) : AppState :=
  { st with selectedReference := none }

/-- A concrete filled-in form, as the UI would produce it. -/
def exOutreachInput : VoiceNoteInput :=
  { ownerName := "Mike", businessName := "Peak Fitness",
    identifiedGap := "leaky funnel", freeValue := "rewrote the page",
    platform := "Instagram", tone := "Casual", goal := "Permission to Send",
    templateId := none, referenceScriptId := none, selectedVoice := "Puck" }

/-- C1: in a non-loading state, a required field that is empty or trims to
fewer than two characters makes `handleGenerate` stop with that field's
message: the backend is not called (`false`), and status, result and form
data are left unchanged (only `errorMessage` is written). -/
theorem handleGenerate_validation_blocks (st : ControllerState)
    (backend : Except String VoiceNoteResult)
    (hst : st.status ≠ GenerationStatus.LOADING) (f : FieldKey)
    (hf : f ∈ requiredFields) (hbad : isBadField (getField st.formData f) = true) :
    ∃ g, g ∈ requiredFields ∧ isBadField (getField st.formData g) = true ∧
      handleGenerate st backend = ({ st with errorMessage := some (fieldMessage g) }, false) := by
  have hsome : (requiredFields.find? fun k => isBadField (getField st.formData k)).isSome := by
    rw [List.find?_isSome]
    exact ⟨f, hf, hbad⟩
  obtain ⟨g, hg⟩ := Option.isSome_iff_exists.mp hsome
  have hpg : isBadField (getField st.formData g) = true := by
    have h2 := List.find?_some hg
    simpa using h2
  refine ⟨g, List.mem_of_find?_eq_some hg, hpg, ?_⟩
  have hval : validateFields st.formData = some (fieldMessage g) := by
    simp [validateFields, hg]
  simp [handleGenerate, hst, hval]

/-- C1 witness: an empty owner name blocks generation with the
owner-name-specific message. -/
theorem handleGenerate_validation_blocks_witness :
    ∃ g, g ∈ requiredFields ∧
      isBadField (getField { exOutreachInput with ownerName := "" } g) = true ∧
      handleGenerate
        { formData := { exOutreachInput with ownerName := "" },
          status := GenerationStatus.IDLE, errorMessage := none, result := none }
        (Except.ok { script := "s", followUp := "f" })
        = ({ formData := { exOutreachInput with ownerName := "" },
             status := GenerationStatus.IDLE,
             errorMessage := some (fieldMessage g), result := none }, false) :=
  handleGenerate_validation_blocks
    { formData := { exOutreachInput with ownerName := "" },
      status := GenerationStatus.IDLE, errorMessage := none, result := none }
    (Except.ok { script := "s", followUp := "f" })
    (by decide) FieldKey.ownerName (by decide) (by decide)

/-- C2: each of the four tones maps the persona to its fixed voice
(Casual→Puck, Professional→Charon, Direct→Fenrir, Warm→Kore); setting the
persona manually stores exactly the chosen value; and an update to any form
field other than `tone` (and other than the persona selector itself, which
is what a manual override is) leaves the persona untouched, so a manual
override persists until the tone changes again. -/
theorem updateField_tone_syncs_persona (fd fd2 : VoiceNoteInput) (manual v : String)
    (f : FieldKey) (hf1 : f ≠ FieldKey.tone) (hf2 : f ≠ FieldKey.selectedVoice) :
    (updateField fd FieldKey.tone "Casual").selectedVoice = "Puck" ∧
    (updateField fd FieldKey.tone "Professional").selectedVoice = "Charon" ∧
    (updateField fd FieldKey.tone "Direct").selectedVoice = "Fenrir" ∧
    (updateField fd FieldKey.tone "Warm").selectedVoice = "Kore" ∧
    (updateField fd FieldKey.selectedVoice manual).selectedVoice = manual ∧
    (updateField fd2 f v).selectedVoice = fd2.selectedVoice := by
  refine ⟨rfl, rfl, rfl, rfl, rfl, ?_⟩
  cases f <;> simp_all [updateField, setField]

/-- C2 witness: after overriding the persona to Zephyr, editing the owner
name leaves it Zephyr. -/
theorem updateField_tone_syncs_persona_witness :
    (updateField exOutreachInput FieldKey.tone "Casual").selectedVoice = "Puck" ∧
    (updateField exOutreachInput FieldKey.tone "Professional").selectedVoice = "Charon" ∧
    (updateField exOutreachInput FieldKey.tone "Direct").selectedVoice = "Fenrir" ∧
    (updateField exOutreachInput FieldKey.tone "Warm").selectedVoice = "Kore" ∧
    (updateField exOutreachInput FieldKey.selectedVoice "Zephyr").selectedVoice = "Zephyr" ∧
    (updateField (updateField exOutreachInput FieldKey.selectedVoice "Zephyr")
        FieldKey.ownerName "Bob").selectedVoice
      = (updateField exOutreachInput FieldKey.selectedVoice "Zephyr").selectedVoice :=
  updateField_tone_syncs_persona exOutreachInput
    (updateField exOutreachInput FieldKey.selectedVoice "Zephyr") "Zephyr" "Bob"
    FieldKey.ownerName (by decide) (by decide)

/-- C9: while the status is `LOADING`, `handleGenerate` returns immediately:
the whole controller state is unchanged and no backend call is started. -/
theorem handleGenerate_loading_noop (st : ControllerState)
    (backend : Except String VoiceNoteResult)
    (h : st.status = GenerationStatus.LOADING) :
    handleGenerate st backend = (st, false) := by
  simp [handleGenerate, h]

/-- C9 witness: a loading controller ignores a second submission. -/
theorem handleGenerate_loading_noop_witness :
    handleGenerate
      { formData := exOutreachInput, status := GenerationStatus.LOADING,
        errorMessage := none, result := none }
      (Except.ok { script := "s", followUp := "f" })
      = ({ formData := exOutreachInput, status := GenerationStatus.LOADING,
           errorMessage := none, result := none }, false) :=
  handleGenerate_loading_noop
    { formData := exOutreachInput, status := GenerationStatus.LOADING,
      errorMessage := none, result := none }
    (Except.ok { script := "s", followUp := "f" }) rfl

/-- C10 counterexample: `selectedVoice` is itself a form field other than
`tone`, and updating it does change the selected persona, so the claim's
frame clause fails as stated. -/
theorem updateField_frame_counterexample :
    FieldKey.selectedVoice ≠ FieldKey.tone ∧
    (updateField exOutreachInput FieldKey.selectedVoice "Kore").selectedVoice
      ≠ exOutreachInput.selectedVoice := by
  decide

/-- C10 amended: updating any form field other than `tone` and other than
the persona field itself leaves the persona unchanged, and updating `tone`
to a value outside the four mapped tones falls back to `Zephyr`. -/
theorem updateField_frame_amended (fd : VoiceNoteInput) (f : FieldKey) (v w : String)
    (hf1 : f ≠ FieldKey.tone) (hf2 : f ≠ FieldKey.selectedVoice)
    (hw : w ∉ ["Casual", "Professional", "Direct", "Warm"]) :
    (updateField fd f v).selectedVoice = fd.selectedVoice ∧
    (updateField fd FieldKey.tone w).selectedVoice = "Zephyr" := by
  constructor
  · cases f <;> simp_all [updateField, setField]
  · simp only [List.mem_cons, List.not_mem_nil, or_false, not_or] at hw
    obtain ⟨h1, h2, h3, h4⟩ := hw
    simp [updateField, setField, TONE_VOICE_MAP, h1, h2, h3, h4]

/-- C10 amended witness: editing the owner name keeps the persona, and the
unmapped tone value `Excited` falls back to `Zephyr`. -/
theorem updateField_frame_amended_witness :
    (updateField exOutreachInput FieldKey.ownerName "Bob").selectedVoice
      = exOutreachInput.selectedVoice ∧
    (updateField exOutreachInput FieldKey.tone "Excited").selectedVoice = "Zephyr" :=
  updateField_frame_amended exOutreachInput FieldKey.ownerName "Bob" "Excited"
    (by decide) (by decide) (by decide)

/-- Unfolding of the `estimatedDuration` memo for a non-empty script. -/
theorem estimatedDuration_formula (r : VoiceNoteResult) (h : r.script ≠ "") :
    estimatedDuration (some r)
      = jsRound ((jsWordCount (stripMarkers r.script) : ℚ) / 140 * 60) := by
  simp [estimatedDuration, h]

/-- C3 counterexample: stripping the timing markers from
`"[0-5s] Hey Mike, [5-10s] saw your site"` does not give exactly
`"Hey Mike, saw your site"` — the two spaces that flanked `[5-10s]` both
survive — neither as the raw replace (duration path) nor after the
additional trim (speech path). -/
theorem stripMarkers_example_counterexample :
    stripMarkers "[0-5s] Hey Mike, [5-10s] saw your site" ≠ "Hey Mike, saw your site" ∧
    cleanTextForSpeech "[0-5s] Hey Mike, [5-10s] saw your site" ≠ "Hey Mike, saw your site" := by
  decide

/-- C3 amended: stripping the markers from
`"[0-5s] Hey Mike, [5-10s] saw your site"` yields
`" Hey Mike,  saw your site"` (trimmed for speech:
`"Hey Mike,  saw your site"`, with a doubled interior space), which agrees
with `"Hey Mike, saw your site"` word for word; the stripped text is what
the TTS prompt embeds, and duration estimation counts the 5 stripped words
(giving 2 seconds), so both paths strip before use. -/
theorem stripMarkers_example_amended :
    stripMarkers "[0-5s] Hey Mike, [5-10s] saw your site" = " Hey Mike,  saw your site" ∧
    cleanTextForSpeech "[0-5s] Hey Mike, [5-10s] saw your site" = "Hey Mike,  saw your site" ∧
    splitWs (jsTrim (stripMarkers "[0-5s] Hey Mike, [5-10s] saw your site"))
      = ["Hey", "Mike,", "saw", "your", "site"] ∧
    splitWs "Hey Mike, saw your site" = ["Hey", "Mike,", "saw", "your", "site"] ∧
    speechPrompt "[0-5s] Hey Mike, [5-10s] saw your site" "Casual"
      = "Voice this script in a casual tone: \"Hey Mike,  saw your site\"" ∧
    estimatedDuration (some { script := "[0-5s] Hey Mike, [5-10s] saw your site",
                              followUp := "f" }) = 2 := by
  refine ⟨by decide, by decide, by decide, by decide, by decide, ?_⟩
  rw [estimatedDuration_formula _ (by decide)]
  have hw : jsWordCount (stripMarkers "[0-5s] Hey Mike, [5-10s] saw your site") = 5 := by
    decide
  rw [hw]
  norm_num [jsRound]

/-- C4: a non-empty script whose stripped word count is 56 is estimated at
24 seconds and bucketed too short; 120 words give 51 seconds, the
acceptable bucket; 160 words give 69 seconds, the too-long bucket; and in
general the estimate is the stripped word count over the fixed rate of 140
words per 60 seconds, rounded. -/
theorem estimatedDuration_buckets (r1 r2 r3 r0 : VoiceNoteResult)
    (h1 : r1.script ≠ "") (hw1 : jsWordCount (stripMarkers r1.script) = 56)
    (h2 : r2.script ≠ "") (hw2 : jsWordCount (stripMarkers r2.script) = 120)
    (h3 : r3.script ≠ "") (hw3 : jsWordCount (stripMarkers r3.script) = 160)
    (h0 : r0.script ≠ "") :
    estimatedDuration (some r1) = 24 ∧
    durationStatus (estimatedDuration (some r1)) = DurationLabel.tooShort ∧
    estimatedDuration (some r2) = 51 ∧
    durationStatus (estimatedDuration (some r2)) = DurationLabel.perfectLength ∧
    estimatedDuration (some r3) = 69 ∧
    durationStatus (estimatedDuration (some r3)) = DurationLabel.aBitLong ∧
    estimatedDuration (some r0)
      = jsRound ((jsWordCount (stripMarkers r0.script) : ℚ) / 140 * 60) := by
  have e1 : estimatedDuration (some r1) = 24 := by
    rw [estimatedDuration_formula r1 h1, hw1]; norm_num [jsRound]
  have e2 : estimatedDuration (some r2) = 51 := by
    rw [estimatedDuration_formula r2 h2, hw2]; norm_num [jsRound]
  have e3 : estimatedDuration (some r3) = 69 := by
    rw [estimatedDuration_formula r3 h3, hw3]; norm_num [jsRound]
  refine ⟨e1, ?_, e2, ?_, e3, ?_, estimatedDuration_formula r0 h0⟩ <;>
    simp [e1, e2, e3, durationStatus]

/-- A 56-word script. -/
def words56 : String := String.intercalate " " (List.replicate 56 "w")

/-- A 120-word script. -/
def words120 : String := String.intercalate " " (List.replicate 120 "w")

/-- A 160-word script. -/
def words160 : String := String.intercalate " " (List.replicate 160 "w")

set_option maxRecDepth 100000 in
/-- C4 witness: concrete 56-, 120- and 160-word scripts land in the three
buckets at 24, 51 and 69 seconds. -/
theorem estimatedDuration_buckets_witness :
    estimatedDuration (some { script := words56, followUp := "f" }) = 24 ∧
    durationStatus (estimatedDuration (some { script := words56, followUp := "f" }))
      = DurationLabel.tooShort ∧
    estimatedDuration (some { script := words120, followUp := "f" }) = 51 ∧
    durationStatus (estimatedDuration (some { script := words120, followUp := "f" }))
      = DurationLabel.perfectLength ∧
    estimatedDuration (some { script := words160, followUp := "f" }) = 69 ∧
    durationStatus (estimatedDuration (some { script := words160, followUp := "f" }))
      = DurationLabel.aBitLong ∧
    estimatedDuration (some { script := words56, followUp := "f" })
      = jsRound ((jsWordCount (stripMarkers words56) : ℚ) / 140 * 60) :=
  estimatedDuration_buckets
    { script := words56, followUp := "f" } { script := words120, followUp := "f" }
    { script := words160, followUp := "f" } { script := words56, followUp := "f" }
    (by decide) (by decide) (by decide) (by decide) (by decide) (by decide) (by decide)

/-- C5: saving writes exactly the new entry prepended to the previous list
(the old entries keep their values and positions, shifted by one), and
deleting by id keeps a subsequence of the old list containing precisely the
entries whose id differs — multiplicities included. -/
theorem library_save_delete (now : Nat) (fd : VoiceNoteInput) (script followUp : String)
    (l : List SavedScript) (id0 : String) (i : Nat) (hs : script ≠ "") :
    handleSaveToLibrary now fd (some { script := script, followUp := followUp }) l
      = mkSavedEntry now fd script :: l ∧
    (handleSaveToLibrary now fd (some { script := script, followUp := followUp }) l).get? (i + 1)
      = l.get? i ∧
    (handleDelete id0 l).Sublist l ∧
    (∀ s, s ∈ handleDelete id0 l ↔ s ∈ l ∧ s.id ≠ id0) ∧
    (∀ s, (handleDelete id0 l).count s = if s.id = id0 then 0 else l.count s) := by
  have hsave : handleSaveToLibrary now fd (some { script := script, followUp := followUp }) l
      = mkSavedEntry now fd script :: l := by
    simp [handleSaveToLibrary, hs]
  refine ⟨hsave, by rw [hsave]; rfl, List.filter_sublist l, ?_, ?_⟩
  · intro s
    simp [handleDelete, List.mem_filter]
  · intro s
    by_cases h : s.id = id0
    · rw [if_pos h, List.count_eq_zero]
      simp [handleDelete, List.mem_filter, h]
    · rw [if_neg h, handleDelete, List.count_filter (by simp [h])]

/-- C5 witness: one concrete save and one concrete delete. -/
theorem library_save_delete_witness :
    handleSaveToLibrary 7 exOutreachInput (some { script := "Hey", followUp := "f" })
        [{ id := "1", title := "t", content := "c", ownerName := "o",
           businessName := "b", createdAt := 1 }]
      = mkSavedEntry 7 exOutreachInput "Hey"
        :: [{ id := "1", title := "t", content := "c", ownerName := "o",
              businessName := "b", createdAt := 1 }] ∧
    (handleSaveToLibrary 7 exOutreachInput (some { script := "Hey", followUp := "f" })
        [{ id := "1", title := "t", content := "c", ownerName := "o",
           businessName := "b", createdAt := 1 }]).get? 1
      = [({ id := "1", title := "t", content := "c", ownerName := "o",
            businessName := "b", createdAt := 1 } : SavedScript)].get? 0 ∧
    (handleDelete "1" [{ id := "1", title := "t", content := "c", ownerName := "o",
                         businessName := "b", createdAt := 1 }]).Sublist
      [{ id := "1", title := "t", content := "c", ownerName := "o",
         businessName := "b", createdAt := 1 }] ∧
    (∀ s, s ∈ handleDelete "1" [{ id := "1", title := "t", content := "c", ownerName := "o",
                                  businessName := "b", createdAt := 1 }]
          ↔ s ∈ [({ id := "1", title := "t", content := "c", ownerName := "o",
                    businessName := "b", createdAt := 1 } : SavedScript)] ∧ s.id ≠ "1") ∧
    (∀ s, (handleDelete "1" [{ id := "1", title := "t", content := "c", ownerName := "o",
                               businessName := "b", createdAt := 1 }]).count s
          = if s.id = "1" then 0
            else ([({ id := "1", title := "t", content := "c", ownerName := "o",
                      businessName := "b", createdAt := 1 } : SavedScript)]).count s) :=
  library_save_delete 7 exOutreachInput "Hey" "f"
    [{ id := "1", title := "t", content := "c", ownerName := "o",
       businessName := "b", createdAt := 1 }] "1" 0 (by decide)

/-- C6: for any PCM byte stream, channel count and frame index in range,
the decoded sample of channel `channel` at frame `i` is the interleaved
signed 16-bit sample at position `i * numChannels + channel`, divided by
32768 (the sample rate plays no role in the sample values). -/
theorem decodeAudioData_normalizes (data : List Nat) (numChannels channel i : Nat)
    (hch : channel < numChannels)
    (hi : i < (bytesToInt16LE data).length / numChannels) :
    ((decodeAudioData data numChannels).getD channel []).getD i 0
      = ((bytesToInt16LE data).getD (i * numChannels + channel) 0 : ℚ) / 32768 := by
  simp [decodeAudioData, List.getD_eq_getElem?_getD, List.getElem?_map,
        List.getElem?_range, hch, hi]

/-- C6 witness: the one-channel stream holding 16-bit samples
`[16384, -16384]` (bytes `[0, 64, 0, 192]` little-endian) decodes to
`[0.5, -0.5]`. -/
theorem decodeAudioData_normalizes_witness :
    ((decodeAudioData [0, 64, 0, 192] 1).getD 0 []).getD 0 0 = 1 / 2 ∧
    ((decodeAudioData [0, 64, 0, 192] 1).getD 0 []).getD 1 0 = -(1 / 2) := by
  have h0 := decodeAudioData_normalizes [0, 64, 0, 192] 1 0 0 (by decide) (by decide)
  have h1 := decodeAudioData_normalizes [0, 64, 0, 192] 1 0 1 (by decide) (by decide)
  rw [h0, h1]
  norm_num [bytesToInt16LE, toInt16]

/-- C7 counterexample: for the unparsable response text `"not json"` the
operation does not fail with the response-format error — the surrounding
catch replaces it with the generic extraction error. -/
theorem processAudioResearch_format_counterexample :
    processAudioResearch (Except.ok (some "not json"))
      = Except.error "Unable to parse the audio research. Please speak more clearly or fill fields manually." ∧
    processAudioResearch (Except.ok (some "not json"))
      ≠ Except.error "The AI returned an invalid response format. Please try again." := by
  refine ⟨rfl, ?_⟩
  intro h
  rw [show processAudioResearch (Except.ok (some "not json"))
      = Except.error "Unable to parse the audio research. Please speak more clearly or fill fields manually." from rfl] at h
  simp only [Except.error.injEq] at h
  exact absurd h (by decide)

/-- C7 amended: a transport failure and an unparsable response text both
surface the same generic extraction error (the internal response-format
error never escapes `processAudioResearch`), and every string in a
successful result is the sanitized — trimmed, angle-bracket-stripped —
form of some extracted value. -/
theorem processAudioResearch_amended :
    (∀ e, processAudioResearch (Except.error e)
      = Except.error "Unable to parse the audio research. Please speak more clearly or fill fields manually.") ∧
    (∀ t, t ≠ "" → jsonParse (jsTrim (stripFences t)) = none →
      processAudioResearch (Except.ok (some t))
        = Except.error "Unable to parse the audio research. Please speak more clearly or fill fields manually.") ∧
    (∀ backend v, processAudioResearch backend = Except.ok v →
      ∃ a b c d, v = { ownerName := sanitize a, businessName := sanitize b,
                       identifiedGap := sanitize c, freeValue := sanitize d }) := by
  refine ⟨fun e => rfl, ?_, ?_⟩
  · intro t ht hp
    simp [processAudioResearch, processAudioResearchTry, parseSafeJSON, ht, hp]
  · intro backend v h
    rcases backend with e | respText
    · simp [processAudioResearch, processAudioResearchTry] at h
    · have hbody : ∀ w, processAudioResearchTry (Except.ok respText) = Except.ok w →
          ∃ a b c d, w = { ownerName := sanitize a, businessName := sanitize b,
                           identifiedGap := sanitize c, freeValue := sanitize d } := by
        intro w hw
        simp only [processAudioResearchTry] at hw
        generalize (match respText with
            | some s => if s = "" then "\x7b\x7d" else s
            | none => "\x7b\x7d") = t at hw
        rcases hps : parseSafeJSON t with e2 | j
        · rw [hps] at hw
          simp at hw
        · rw [hps] at hw
          replace hw : extractAll j = Except.ok w := hw
          unfold extractAll at hw
          rcases h1 : fieldAsString j "ownerName" with u1 | a <;> rw [h1] at hw <;>
            rcases h2 : fieldAsString j "businessName" with u2 | b <;> rw [h2] at hw <;>
            rcases h3 : fieldAsString j "identifiedGap" with u3 | c <;> rw [h3] at hw <;>
            rcases h4 : fieldAsString j "freeValue" with u4 | d <;> rw [h4] at hw
          all_goals first
            | (exact absurd
                (show (Except.error "TypeError" : Except String ExtractedFields)
                    = Except.ok w from hw)
                (by simp))
            | (have hw2 : Except.ok (ExtractedFields.mk (sanitize a) (sanitize b)
                    (sanitize c) (sanitize d)) = Except.ok w := hw
               injection hw2 with hw3
               exact ⟨a, b, c, d, hw3.symm⟩)
      rw [processAudioResearch] at h
      rcases htry : processAudioResearchTry (Except.ok respText) with e2 | w <;>
        rw [htry] at h
      · simp at h
      · simp only [Except.ok.injEq] at h
        obtain ⟨a, b, c, d, hw⟩ := hbody w htry
        exact ⟨a, b, c, d, h ▸ hw⟩

/-- C7 amended witness: concrete transport failure, concrete parse failure,
and a concrete success whose fields are sanitized values. -/
theorem processAudioResearch_amended_witness :
    processAudioResearch (Except.error "network down")
      = Except.error "Unable to parse the audio research. Please speak more clearly or fill fields manually." ∧
    processAudioResearch (Except.ok (some "not json"))
      = Except.error "Unable to parse the audio research. Please speak more clearly or fill fields manually." ∧
    ∃ a b c d, ({ ownerName := "Mike", businessName := "Peak", identifiedGap := "",
                  freeValue := "" } : ExtractedFields)
      = { ownerName := sanitize a, businessName := sanitize b,
          identifiedGap := sanitize c, freeValue := sanitize d } :=
  ⟨processAudioResearch_amended.1 "network down",
   processAudioResearch_amended.2.1 "not json" (by decide) rfl,
   processAudioResearch_amended.2.2
     (Except.ok (some "\x7b\"ownerName\": \"  <Mike> \", \"businessName\": \"Peak\"\x7d"))
     { ownerName := "Mike", businessName := "Peak", identifiedGap := "", freeValue := "" }
     rfl⟩

/-- A freshly written key reads back its value. -/
theorem getItem_setItem_self (store : Store) (k : String) (v : Json) :
    getItem (setItem store k v) k = some v := by
  simp [getItem, setItem, List.find?]

/-- Writing one key does not disturb reads of another. -/
theorem getItem_setItem_other (store : Store) (k k2 : String) (v : Json)
    (h : k ≠ k2) : getItem (setItem store k2 v) k = getItem store k := by
  have h2 : k2 ≠ k := Ne.symm h
  simp only [getItem, setItem, removeItem]
  rw [List.find?_cons_of_neg _ (by simp [h2])]
  induction store with
  | nil => rfl
  | cons p rest ih =>
    by_cases hp2 : p.1 = k2
    · rw [List.filter_cons_of_neg (by simp [hp2])]
      rw [List.find?_cons_of_neg _ (by simp [hp2, h2])]
      exact ih
    · rw [List.filter_cons_of_pos (by simp [hp2])]
      by_cases hpk : p.1 = k
      · rw [List.find?_cons_of_pos _ (by simp [hpk]),
            List.find?_cons_of_pos _ (by simp [hpk])]
      · rw [List.find?_cons_of_neg _ (by simp [hpk]),
            List.find?_cons_of_neg _ (by simp [hpk])]
        exact ih

/-- A removed key reads back nothing. -/
theorem getItem_removeItem_self (store : Store) (k : String) :
    getItem (removeItem store k) k = none := by
  have hfind : List.find? (fun p : String × Json => p.1 == k)
      (store.filter fun p => p.1 != k) = none := by
    rw [List.find?_eq_none]
    intro p hp
    simp only [List.mem_filter] at hp
    simpa using hp.2
  simp [getItem, removeItem, hfind]

/-- Parsing a stored script recovers it exactly. -/
theorem scriptFromJson_scriptToJson (s : SavedScript) :
    scriptFromJson (scriptToJson s) = some s := by
  cases s
  simp [scriptFromJson, scriptToJson, jsonObjGet, jsonStr?, jsonNat?]

/-- C8: after selecting a saved script as the style reference (which also
switches to the generator tab), the persisted store reads the same script
back — including after a later tab switch re-persists state — so a
simulated reload restores it; and clearing the reference removes the
`app_active_reference` record from the store entirely instead of storing a
null value. -/
theorem referencePersistence (store : Store) (script : SavedScript) (tab : String) :
    loadReference (persistApp store (handleUseAsReference script)) = some script ∧
    initApp (persistApp store (handleUseAsReference script))
      = { activeTab := "create", selectedReference := some script } ∧
    loadReference (persistApp (persistApp store (handleUseAsReference script))
        { activeTab := tab, selectedReference := some script }) = some script ∧
    getItem (persistReference store none) "app_active_reference" = none ∧
    (persistReference store none).all
      (fun p => p.1 != "app_active_reference") = true := by
  have hne : ("app_active_tab" : String) ≠ "app_active_reference" := by decide
  refine ⟨?_, ?_, ?_, ?_, ?_⟩
  · simp only [persistApp, handleUseAsReference, persistReference, persistTab, loadReference]
    rw [getItem_setItem_self]
    exact scriptFromJson_scriptToJson script
  · simp only [initApp, persistApp, handleUseAsReference, persistReference, persistTab,
               loadTab, loadReference]
    rw [getItem_setItem_other _ _ _ _ hne, getItem_setItem_self, getItem_setItem_self]
    simp [scriptFromJson_scriptToJson]
  · simp only [persistApp, handleUseAsReference, persistReference, persistTab, loadReference]
    rw [getItem_setItem_self]
    exact scriptFromJson_scriptToJson script
  · simp only [persistReference]
    exact getItem_removeItem_self store "app_active_reference"
  · simp only [persistReference, removeItem, List.all_eq_true]
    intro p hp
    exact (List.mem_filter.mp hp).2
